import Mathlib

/-!
Verification of the `libmushu` amplifier driver contract.

`src/libmushu/amplifier.py` declares the abstract base class `Amplifier`:
its lifecycle methods (`configure`, `configure_with_gui`, `start`, `stop`,
`get_data`) have `pass` bodies (silent no-ops returning Python `None`), and
its capability queries (`get_channels`, `get_sampling_frequency`,
`is_available`) raise `NotImplementedError`.  Concrete drivers derive from
this class and implement the behavior; that implementing code is not part
of the source under verification, so the behavioral contract is modelled
from the specification where needed (definitions marked
`Modelled from the spec:`), while the base class itself is embedded
faithfully below.
-/

/-- Python exceptions raised by the methods of the base class. -/
inductive PyError
  | notImplementedError
deriving DecidableEq, Repr

/-- The Python value `None`, which a `pass` body returns. -/
inductive PyVal
  | pyNone
deriving DecidableEq, Repr

namespace Amplifier

/-- `Amplifier.configure` (src/libmushu/amplifier.py lines 53-65): the body is
`pass`, so it returns `None` and leaves the instance state (of any type `σ`)
untouched, for any configuration argument (of any type `α`). -/
def configure {σ α : Type} (self : σ) (config : α) :
    Except PyError (PyVal × σ) :=
  let _ := config
  .ok (.pyNone, self)

/-- `Amplifier.configure_with_gui` (lines 67-75): body is `pass`. -/
def configure_with_gui {σ : Type} (self : σ) : Except PyError (PyVal × σ) :=
  .ok (.pyNone, self)

/-- `Amplifier.start` (lines 77-79): body is `pass`. -/
def start {σ : Type} (self : σ) : Except PyError (PyVal × σ) :=
  .ok (.pyNone, self)

/-- `Amplifier.stop` (lines 81-83): body is `pass`. -/
def stop {σ : Type} (self : σ) : Except PyError (PyVal × σ) :=
  .ok (.pyNone, self)

/-- `Amplifier.get_data` (lines 85-95): body is `pass`, so the base class
returns `None` (the docstring promises an array and a marker list, which
only derived drivers provide). -/
def get_data {σ : Type} (self : σ) : Except PyError (PyVal × σ) :=
  .ok (.pyNone, self)

/-- `Amplifier.get_channels` (lines 97-108): `raise NotImplementedError`. -/
def get_channels {σ : Type} (self : σ) :
    Except PyError (List String × σ) :=
  let _ := self
  .error .notImplementedError

/-- `Amplifier.get_sampling_frequency` (lines 110-120):
`raise NotImplementedError`. -/
def get_sampling_frequency {σ : Type} (self : σ) :
    Except PyError (Nat × σ) :=
  let _ := self
  .error .notImplementedError

/-- `Amplifier.is_available` (lines 122-133): a static method whose body is
`raise NotImplementedError`. -/
def is_available : Except PyError Bool :=
  .error .notImplementedError

end Amplifier

namespace Driver

/-- Modelled from the spec: the error taxonomy of §7 for concrete drivers
(the concrete driver implementations are not under src/). -/
inductive AmpError
  | configurationError
  | invalidStateError
  | notConfiguredError
  | hardwareUnavailableError
  | hardwareError
  | dataOverflowError
  | notSupportedError
deriving DecidableEq, Repr

/-- Modelled from the spec: the three lifecycle states of §3
(`Idle`, `Configured`, `Streaming`) for a concrete driver. -/
inductive Tag
  | idle
  | configured
  | streaming
deriving DecidableEq, Repr

/-- Modelled from the spec: an amplifier-specific configuration value —
whether the hardware accepts it, and the channel set and sampling
frequency it requests (§3, Configuration). -/
structure Config where
  valid : Bool
  channels : List String
  freq : Nat
deriving DecidableEq, Repr

/-- Modelled from the spec: the state a concrete driver instance owns —
its lifecycle tag, whether any configure ever succeeded, and the channel
set and effective sampling frequency of the active configuration. -/
structure AmpState where
  tag : Tag
  everConfigured : Bool
  channels : List String
  freq : Nat
deriving DecidableEq, Repr

/-- Modelled from the spec: a freshly constructed, never-configured
driver instance starts in `Idle`. -/
def initState : AmpState :=
  { tag := .idle, everConfigured := false, channels := [], freq := 0 }

/-- Modelled from the spec (§4.1): `configure` fails with
`InvalidStateError` while `Streaming`, fails with `ConfigurationError`
on a malformed configuration, and otherwise moves the driver to
`Configured` with the new channel set and frequency. -/
def configure (s : AmpState) (cfg : Config) :
    Except AmpError (Unit × AmpState) :=
  match s.tag with
  | .streaming => .error .invalidStateError
  | _ =>
    if cfg.valid then
      .ok ((), { tag := .configured, everConfigured := true,
                 channels := cfg.channels, freq := cfg.freq })
    else
      .error .configurationError

/-- Modelled from the spec (§4.1): `start` arms the device only from
`Configured`; from any other state the call order is wrong and it fails
with `InvalidStateError`; a hardware fault at arming surfaces as
`HardwareUnavailableError` and leaves the state `Configured`. -/
def start (s : AmpState) (hwOk : Bool) :
    Except AmpError (Unit × AmpState) :=
  match s.tag with
  | .configured =>
    if hwOk then .ok ((), { s with tag := .streaming })
    else .error .hardwareUnavailableError
  | _ => .error .invalidStateError

/-- Modelled from the spec (§4.1): `stop` from `Streaming` returns the
driver to `Idle` when the device responds; if teardown communication
fails it raises `HardwareError` and the state stays `Streaming`; calling
`stop` outside `Streaming` is a call-order error. -/
def stop (s : AmpState) (hwResponds : Bool) :
    Except AmpError (Unit × AmpState) :=
  match s.tag with
  | .streaming =>
    if hwResponds then .ok ((), { s with tag := .idle })
    else .error .hardwareError
  | _ => .error .invalidStateError

/-- Modelled from the spec (§4.1): `get_channels` is a pure read of the
channel set, failing with `NotConfiguredError` before any successful
`configure`. -/
def get_channels (s : AmpState) :
    Except AmpError (List String × AmpState) :=
  if s.everConfigured then .ok (s.channels, s)
  else .error .notConfiguredError

/-- Modelled from the spec (§4.1): `get_sampling_frequency` is a pure read
of the effective sampling frequency, failing with `NotConfiguredError`
before any successful `configure`. -/
def get_sampling_frequency (s : AmpState) :
    Except AmpError (Nat × AmpState) :=
  if s.everConfigured then .ok (s.freq, s)
  else .error .notConfiguredError

/-- Modelled from the spec: one lifecycle call made on a driver instance,
with the hardware's cooperation recorded for `start`/`stop`. -/
inductive Op
  | configure (cfg : Config)
  | start (hwOk : Bool)
  | stop (hwOk : Bool)
  | get_channels
  | get_sampling_frequency
deriving DecidableEq, Repr

/-- Modelled from the spec (§7): the driver state after one call — a call
that fails leaves the state unchanged (errors propagate to the caller,
they do not corrupt the state machine). -/
def runOp (s : AmpState) (op : Op) : AmpState :=
  match op with
  | .configure cfg =>
    match configure s cfg with
    | .ok (_, s') => s'
    | .error _ => s
  | .start hw =>
    match start s hw with
    | .ok (_, s') => s'
    | .error _ => s
  | .stop hw =>
    match stop s hw with
    | .ok (_, s') => s'
    | .error _ => s
  | .get_channels =>
    match get_channels s with
    | .ok (_, s') => s'
    | .error _ => s
  | .get_sampling_frequency =>
    match get_sampling_frequency s with
    | .ok (_, s') => s'
    | .error _ => s

/-- Modelled from the spec: the driver state after a sequence of calls. -/
def run (s : AmpState) (ops : List Op) : AmpState :=
  ops.foldl runOp s

/-- A call trace on whose `configure` calls all carried a rejected
configuration contains no successful configure. -/
def noSuccessfulConfigure (ops : List Op) : Prop :=
  ∀ cfg : Config, Op.configure cfg ∈ ops → cfg.valid = false

/-- Modelled from the spec (§3, §4.3): the state of one Streaming Session
of a concrete driver (the concrete drivers are not under src/).  The
hardware's true signal assigns each channel name a sample value at every
absolute time index; `markerAt` gives the marker event, if any, at each
absolute time index; `produced` counts the samples the hardware has
produced so far, `delivered` those already handed to the caller, and
`capacity` bounds the driver's internal buffer. -/
structure Session where
  channels : List String
  signal : String → Nat → Int
  markerAt : Nat → Option String
  supportsMarkers : Bool
  capacity : Nat
  produced : Nat
  delivered : Nat

/-- Modelled from the spec (§3): the true sample row at absolute time
index `i` — one column per channel, in Channel Set order. -/
def sampleRow (s : Session) (i : Nat) : List Int :=
  s.channels.map fun c => s.signal c i

/-- Modelled from the spec (§4.3): one `get_data` poll.  If more samples
are pending than the buffer holds, data was unavoidably lost and the call
fails with `DataOverflowError`; otherwise it returns the chunk of all
pending sample rows (possibly empty), the markers falling in that chunk
with chunk-relative offsets (empty when the driver cannot detect
markers), and the session with those samples marked delivered. -/
def get_data (s : Session) :
    Except AmpError (List (List Int) × List (Nat × String) × Session) :=
  let pending := s.produced - s.delivered
  if s.capacity < pending then .error .dataOverflowError
  else
    .ok ((List.range' s.delivered pending).map (sampleRow s),
      (if s.supportsMarkers then
        (List.range' s.delivered pending).filterMap fun i =>
          (s.markerAt i).map fun l => (i - s.delivered, l)
      else []),
      { s with delivered := s.produced })

/-- Modelled from the spec (§4.3): between two polls the hardware produces
`k` further samples; then the caller polls once. -/
def produceThenPoll (s : Session) (k : Nat) :
    Except AmpError (List (List Int) × Session) :=
  match get_data { s with produced := s.produced + k } with
  | .ok (chunk, _, s') => .ok (chunk, s')
  | .error e => .error e

/-- Modelled from the spec (§4.3, P1): a run of consecutive `get_data`
polls, the hardware producing `k` samples before each; returns the chunks
in call order. -/
def runSession : Session → List Nat →
    Except AmpError (List (List (List Int)) × Session)
  | s, [] => .ok ([], s)
  | s, k :: ks =>
    match produceThenPoll s k with
    | .error e => .error e
    | .ok (chunk, s1) =>
      match runSession s1 ks with
      | .error e => .error e
      | .ok (chunks, s2) => .ok (chunk :: chunks, s2)

/-- Modelled from the spec (§4.1, §5): the process-wide state visible to a
driver type — whether the process has access to a physical device, and the
state of a driver instance that may exist in the process. -/
structure World where
  connected : Bool
  amp : AmpState

/-- Modelled from the spec (§4.1, §5): `is_available` probes whether this
process has access to at least one device of this type; it needs no owned
instance and no prior `configure`/`start`, and it returns the process
state unchanged (no side effect on device state). -/
def is_available (w : World) : Bool × World :=
  (w.connected, w)

end Driver

/-- A concrete driver state in the `Streaming` lifecycle state. -/
def sStreaming : Driver.AmpState :=
  { tag := .streaming, everConfigured := true,
    channels := ["c1"], freq := 100 }

/-- An eight-channel streaming session whose hardware has produced no
samples yet and which cannot detect markers. -/
def wSessA : Driver.Session :=
  { channels := ["c0", "c1", "c2", "c3", "c4", "c5", "c6", "c7"],
    signal := fun _ i => (i : Int),
    markerAt := fun _ => none,
    supportsMarkers := false,
    capacity := 1000,
    produced := 0,
    delivered := 0 }

/-- A one-channel marker-capable session with ten pending samples and a
marker at the last of them (absolute index 9). -/
def wSessM : Driver.Session :=
  { channels := ["c1"],
    signal := fun _ i => (i : Int),
    markerAt := fun i => if i = 9 then some "m" else none,
    supportsMarkers := true,
    capacity := 100,
    produced := 10,
    delivered := 0 }

/-- A session whose five pending samples exceed its buffer capacity of
one: data has been unavoidably lost. -/
def wSessOver : Driver.Session :=
  { channels := ["c1"],
    signal := fun _ i => (i : Int),
    markerAt := fun _ => none,
    supportsMarkers := true,
    capacity := 1,
    produced := 5,
    delivered := 0 }

/-- The Sample Chunk `get_data` delivers for the ten pending samples of
`wSessM`. -/
def wChunkM : List (List Int) :=
  (List.range' 0 10).map (Driver.sampleRow wSessM)

/-- The marker sequence `get_data` delivers with `wChunkM`: the marker at
absolute index 9 appears at chunk-relative offset 9. -/
def wMsM : List (Nat × String) :=
  [(9, "m")]

/-- The session state after the `wSessM` poll. -/
def wSessM1 : Driver.Session :=
  { wSessM with delivered := 10 }

/-- The chunks delivered by three consecutive polls on `wSessA` with 12,
0 and 5 samples arriving in between. -/
def wChunksA : List (List (List Int)) :=
  [(List.range' 0 12).map (Driver.sampleRow wSessA), [],
   (List.range' 12 5).map (Driver.sampleRow wSessA)]

/-- The session state after those three polls: 17 samples delivered. -/
def wSessA3 : Driver.Session :=
  { wSessA with produced := 17, delivered := 17 }

theorem runOp_idle_unconfigured {s : Driver.AmpState}
    (hTag : s.tag = .idle) (hCfg : s.everConfigured = false) :
    ∀ op : Driver.Op,
      (∀ cfg : Driver.Config, op = Driver.Op.configure cfg →
        cfg.valid = false) →
      Driver.runOp s op = s := by
  intro op hop
  cases op with
  | configure cfg =>
    have hv : cfg.valid = false := hop cfg rfl
    simp [Driver.runOp, Driver.configure, hTag, hv]
  | start hw => simp [Driver.runOp, Driver.start, hTag]
  | stop hw => simp [Driver.runOp, Driver.stop, hTag]
  | get_channels => simp [Driver.runOp, Driver.get_channels, hCfg]
  | get_sampling_frequency =>
    simp [Driver.runOp, Driver.get_sampling_frequency, hCfg]

theorem run_no_configure_fixed :
    ∀ (ops : List Driver.Op) (s : Driver.AmpState), s.tag = .idle →
      s.everConfigured = false → Driver.noSuccessfulConfigure ops →
      Driver.run s ops = s := by
  intro ops
  induction ops with
  | nil => intro s _ _ _; rfl
  | cons op ops ih =>
    intro s hTag hCfg hno
    have hstep : Driver.runOp s op = s := by
      apply runOp_idle_unconfigured hTag hCfg
      intro cfg hop
      exact hno cfg (by simp [hop])
    show Driver.run (Driver.runOp s op) ops = s
    rw [hstep]
    exact ih s hTag hCfg fun cfg hmem => hno cfg (List.mem_cons_of_mem _ hmem)

/-- Claim C10: in the base `Amplifier` class, `configure`,
`configure_with_gui`, `start` and `stop` are unconditional silent no-ops —
for every instance state and every argument they return `None`, raise no
error, and leave the state unchanged. -/
theorem spec_C10_base_class_noops {σ α : Type} (self : σ) (config : α) :
    Amplifier.configure self config = .ok (.pyNone, self) ∧
    Amplifier.configure_with_gui self = .ok (.pyNone, self) ∧
    Amplifier.start self = .ok (.pyNone, self) ∧
    Amplifier.stop self = .ok (.pyNone, self) :=
  ⟨rfl, rfl, rfl, rfl⟩

/-- Claim C3: every call to `configure cfg` made while the driver is in the
`Streaming` state fails with `InvalidStateError`, for every configuration
value `cfg`. -/
theorem spec_C3_configure_while_streaming (s : Driver.AmpState)
    (cfg : Driver.Config) (h : s.tag = .streaming) :
    Driver.configure s cfg = .error .invalidStateError := by
  simp [Driver.configure, h]

theorem spec_C3_configure_while_streaming_witness :
    Driver.configure sStreaming ⟨true, ["c2"], 200⟩ =
      .error .invalidStateError :=
  spec_C3_configure_while_streaming sStreaming ⟨true, ["c2"], 200⟩ rfl

/-- Claim C2: on a driver instance whose call history contains no
successful `configure`, calling `start` fails with `InvalidStateError`
(it does not silently succeed). -/
theorem spec_C2_start_requires_configure (ops : List Driver.Op)
    (hwOk : Bool) (hno : Driver.noSuccessfulConfigure ops) :
    Driver.start (Driver.run Driver.initState ops) hwOk =
      .error .invalidStateError := by
  rw [run_no_configure_fixed ops Driver.initState rfl rfl hno]
  simp [Driver.start, Driver.initState]

theorem spec_C2_start_requires_configure_witness :
    Driver.start (Driver.run Driver.initState
        [Driver.Op.start true, Driver.Op.stop true]) true =
      .error .invalidStateError :=
  spec_C2_start_requires_configure [Driver.Op.start true, Driver.Op.stop true]
    true (by intro cfg hmem; simp at hmem)

/-- Claim C4: `get_channels` and `get_sampling_frequency` called on an
instance whose history contains no successful `configure` fail with
`NotConfiguredError`; once some `configure` has succeeded, both are pure
reads returning `ok` and leaving the driver state unchanged. -/
theorem spec_C4_capability_queries :
    (∀ ops : List Driver.Op, Driver.noSuccessfulConfigure ops →
      Driver.get_channels (Driver.run Driver.initState ops) =
          .error .notConfiguredError ∧
        Driver.get_sampling_frequency (Driver.run Driver.initState ops) =
          .error .notConfiguredError) ∧
    (∀ s : Driver.AmpState, s.everConfigured = true →
      Driver.get_channels s = .ok (s.channels, s) ∧
        Driver.get_sampling_frequency s = .ok (s.freq, s)) := by
  constructor
  · intro ops hno
    rw [run_no_configure_fixed ops Driver.initState rfl rfl hno]
    constructor
    · simp [Driver.get_channels, Driver.initState]
    · simp [Driver.get_sampling_frequency, Driver.initState]
  · intro s hs
    constructor
    · simp [Driver.get_channels, hs]
    · simp [Driver.get_sampling_frequency, hs]

theorem spec_C4_capability_queries_witness :
    Driver.get_channels (Driver.run Driver.initState [Driver.Op.start true]) =
        .error .notConfiguredError ∧
      Driver.get_channels sStreaming = .ok (sStreaming.channels, sStreaming) :=
  ⟨(spec_C4_capability_queries.1 [Driver.Op.start true]
      (by intro cfg hmem; simp at hmem)).1,
   (spec_C4_capability_queries.2 sStreaming rfl).1⟩

/-- Claim C8: `stop` called while `Streaming` either succeeds and moves the
driver to `Idle` — after which a new valid `configure` is permitted — or, if
teardown communication fails, fails with `HardwareError` while the state is
left unchanged (still `Streaming`), so `stop` may be retried. -/
theorem spec_C8_stop_semantics (s : Driver.AmpState)
    (h : s.tag = .streaming) :
    Driver.stop s true = .ok ((), { s with tag := .idle }) ∧
    (∀ cfg : Driver.Config, cfg.valid = true →
      ∃ s' : Driver.AmpState,
        Driver.configure { s with tag := .idle } cfg = .ok ((), s')) ∧
    Driver.stop s false = .error .hardwareError ∧
    Driver.runOp s (Driver.Op.stop false) = s := by
  refine ⟨by simp [Driver.stop, h], ?_, by simp [Driver.stop, h],
    by simp [Driver.runOp, Driver.stop, h]⟩
  intro cfg hv
  refine ⟨{ tag := .configured, everConfigured := true,
            channels := cfg.channels, freq := cfg.freq }, ?_⟩
  simp [Driver.configure, hv]

theorem spec_C8_stop_semantics_witness :
    Driver.stop sStreaming true = .ok ((), { sStreaming with tag := .idle }) ∧
      Driver.stop sStreaming false = .error .hardwareError ∧
      Driver.runOp sStreaming (Driver.Op.stop false) = sStreaming :=
  ⟨(spec_C8_stop_semantics sStreaming rfl).1,
   (spec_C8_stop_semantics sStreaming rfl).2.2.1,
   (spec_C8_stop_semantics sStreaming rfl).2.2.2⟩

/-- Claim C7: as long as no data was lost to overflow, every `get_data`
call returns a pair of a Sample Chunk (possibly with zero rows — not an
error) and a marker sequence; a driver incapable of marker detection
returns an empty marker sequence rather than omitting the marker
component, so the return shape is preserved on every call. -/
theorem spec_C7_return_shape (s : Driver.Session)
    (h : s.produced - s.delivered ≤ s.capacity) :
    ∃ chunk ms, Driver.get_data s =
        .ok (chunk, ms, { s with delivered := s.produced }) ∧
      (s.supportsMarkers = false → ms = []) ∧
      (s.produced = s.delivered → chunk = []) := by
  refine ⟨(List.range' s.delivered (s.produced - s.delivered)).map
      (Driver.sampleRow s),
    (if s.supportsMarkers then
      (List.range' s.delivered (s.produced - s.delivered)).filterMap fun i =>
        (s.markerAt i).map fun l => (i - s.delivered, l)
    else []), ?_, ?_, ?_⟩
  · simp [Driver.get_data, Nat.not_lt.mpr h]
  · intro hm
    simp [hm]
  · intro hpd
    simp [hpd]

theorem spec_C7_return_shape_witness :
    ∃ chunk ms, Driver.get_data wSessA =
        .ok (chunk, ms, { wSessA with delivered := wSessA.produced }) ∧
      (wSessA.supportsMarkers = false → ms = []) ∧
      (wSessA.produced = wSessA.delivered → chunk = []) :=
  spec_C7_return_shape wSessA (by decide)

theorem get_data_ok_inv {s : Driver.Session} {chunk : List (List Int)}
    {ms : List (Nat × String)} {t : Driver.Session}
    (h : Driver.get_data s = .ok (chunk, ms, t)) :
    chunk = (List.range' s.delivered (s.produced - s.delivered)).map
        (Driver.sampleRow s) ∧
      ms = (if s.supportsMarkers then
        (List.range' s.delivered (s.produced - s.delivered)).filterMap
          fun i => (s.markerAt i).map fun l => (i - s.delivered, l)
      else []) ∧
      t = { s with delivered := s.produced } := by
  by_cases hov : s.capacity < s.produced - s.delivered
  · simp [Driver.get_data, hov] at h
  · simp [Driver.get_data, hov] at h
    exact ⟨h.1.symm, h.2.1.symm, h.2.2.symm⟩

/-- Claim C5: every Sample Chunk row returned by `get_data` has exactly one
column per name in the session's Channel Set, and its `j`-th column holds
the value of the `j`-th channel's signal at that row's time index. -/
theorem spec_C5_chunk_shape (s : Driver.Session)
    (chunk : List (List Int)) (ms : List (Nat × String))
    (s' : Driver.Session)
    (h : Driver.get_data s = .ok (chunk, ms, s')) :
    ∀ row ∈ chunk, row.length = s.channels.length ∧
      ∃ i : Nat, ∀ j : Nat,
        row[j]? = (s.channels[j]?).map fun c => s.signal c i := by
  obtain ⟨hc, -, -⟩ := get_data_ok_inv h
  subst hc
  intro row hrow
  rw [List.mem_map] at hrow
  obtain ⟨i, -, hrowEq⟩ := hrow
  subst hrowEq
  refine ⟨by simp [Driver.sampleRow], i, fun j => ?_⟩
  simp [Driver.sampleRow]

theorem spec_C5_chunk_shape_witness :
    (Driver.sampleRow wSessM 9).length = wSessM.channels.length ∧
      ∃ i : Nat, ∀ j : Nat,
        (Driver.sampleRow wSessM 9)[j]? =
          (wSessM.channels[j]?).map fun c => wSessM.signal c i :=
  spec_C5_chunk_shape wSessM wChunkM wMsM wSessM1 rfl
    (Driver.sampleRow wSessM 9) (by decide)

/-- Claim C6: every marker delivered alongside a Sample Chunk carries a
chunk-relative offset that is a valid row index into that chunk — offsets
are natural numbers, so `0 ≤ offset` holds by type and the offset is
strictly below the chunk's row count (a marker at the last sample of a
10-row chunk gets offset 9, not 10). -/
theorem spec_C6_marker_bounds (s : Driver.Session)
    (chunk : List (List Int)) (ms : List (Nat × String))
    (s' : Driver.Session)
    (h : Driver.get_data s = .ok (chunk, ms, s')) :
    ∀ m ∈ ms, m.1 < chunk.length := by
  obtain ⟨hc, hm, -⟩ := get_data_ok_inv h
  subst hc
  subst hm
  intro m hmem
  by_cases hsup : s.supportsMarkers
  · rw [if_pos hsup, List.mem_filterMap] at hmem
    obtain ⟨i, hi, hf⟩ := hmem
    rw [List.mem_range'_1] at hi
    rcases hmk : s.markerAt i with - | l
    · rw [hmk] at hf
      simp at hf
    · rw [hmk] at hf
      simp at hf
      subst hf
      simp only [List.length_map, List.length_range']
      omega
  · rw [if_neg hsup] at hmem
    simp at hmem

theorem spec_C6_marker_bounds_witness :
    ((9 : Nat), "m").1 < wChunkM.length :=
  spec_C6_marker_bounds wSessM wChunkM wMsM wSessM1 rfl (9, "m") (by decide)

theorem sampleRow_update (s : Driver.Session) (p d : Nat) :
    Driver.sampleRow { s with produced := p, delivered := d } =
      Driver.sampleRow s :=
  rfl

theorem produceThenPoll_ok_inv {s : Driver.Session} {k : Nat}
    {chunk : List (List Int)} {s1 : Driver.Session}
    (h : Driver.produceThenPoll s k = .ok (chunk, s1)) :
    chunk = (List.range' s.delivered (s.produced + k - s.delivered)).map
        (Driver.sampleRow s) ∧
      s1 = { s with produced := s.produced + k,
                    delivered := s.produced + k } := by
  unfold Driver.produceThenPoll at h
  rcases hg : Driver.get_data { s with produced := s.produced + k }
    with e | ⟨c, m, t⟩
  · rw [hg] at h
    simp at h
  · rw [hg] at h
    simp at h
    obtain ⟨hck, hmt⟩ := get_data_ok_inv hg
    refine ⟨?_, ?_⟩
    · rw [← h.1]
      exact hck
    · rw [← h.2]
      exact hmt.2

theorem range'_glue (f : Nat → List Int) (d a b : Nat) (h1 : d ≤ a)
    (h2 : a ≤ b) :
    (List.range' d (a - d)).map f ++ (List.range' a (b - a)).map f =
      (List.range' d (b - d)).map f := by
  rw [← List.map_append]
  have hglue := List.range'_append_1 d (a - d) (b - a)
  rw [Nat.add_sub_cancel' h1] at hglue
  rw [hglue]
  have harith : b - a + (a - d) = b - d := by omega
  rw [harith]

theorem runSession_ok :
    ∀ (ks : List Nat) (s : Driver.Session)
      (chunks : List (List (List Int))) (s' : Driver.Session),
      s.delivered ≤ s.produced →
      Driver.runSession s ks = .ok (chunks, s') →
      s.delivered ≤ s'.delivered ∧ s'.delivered ≤ s'.produced ∧
        Driver.sampleRow s' = Driver.sampleRow s ∧
        chunks.flatten =
          (List.range' s.delivered (s'.delivered - s.delivered)).map
            (Driver.sampleRow s) := by
  intro ks
  induction ks with
  | nil =>
    intro s chunks s' hds h
    simp [Driver.runSession] at h
    obtain ⟨h1, h2⟩ := h
    subst h1
    subst h2
    exact ⟨Nat.le_refl _, hds, rfl, by simp⟩
  | cons k ks ih =>
    intro s chunks s' hds h
    rw [Driver.runSession] at h
    rcases hp : Driver.produceThenPoll s k with e | ⟨chunk1, s1⟩
    · rw [hp] at h
      simp at h
    · rw [hp] at h
      dsimp only at h
      rcases hr : Driver.runSession s1 ks with e2 | ⟨chunks2, s2⟩
      · rw [hr] at h
        simp at h
      · rw [hr] at h
        simp at h
        obtain ⟨hch, hs2⟩ := h
        subst hch
        subst hs2
        obtain ⟨hchunk, hs1⟩ := produceThenPoll_ok_inv hp
        have hd1 : s1.delivered = s.produced + k := by rw [hs1]
        have hp1 : s1.produced = s.produced + k := by rw [hs1]
        have hsr : Driver.sampleRow s1 = Driver.sampleRow s := by
          rw [hs1]
          exact sampleRow_update s (s.produced + k) (s.produced + k)
        obtain ⟨ih1, ih2, ih3, ih4⟩ :=
          ih s1 chunks2 s2 (by omega) hr
        rw [hd1] at ih1
        rw [hsr] at ih3
        rw [hd1, hsr] at ih4
        refine ⟨by omega, ih2, ih3, ?_⟩
        rw [List.flatten_cons, hchunk, ih4]
        have hda : s.delivered ≤ s.produced + k := by omega
        have hab : s.produced + k ≤ s2.delivered := ih1
        have hg := range'_glue (Driver.sampleRow s) s.delivered
          (s.produced + k) s2.delivered hda hab
        rw [← hg]

/-- Claim C1: over any sequence of consecutive `get_data` polls in one
Streaming Session, concatenating the returned chunks in call order yields
exactly the contiguous run of true sample rows from the first undelivered
index to the last delivered one — no gap and no duplicate; and whenever
the pending data exceeds the buffer capacity (data unavoidably lost),
`get_data` fails with `DataOverflowError` instead of silently skipping. -/
theorem spec_C1_get_data_contiguous :
    (∀ (s : Driver.Session) (ks : List Nat)
      (chunks : List (List (List Int))) (s' : Driver.Session),
      s.delivered ≤ s.produced →
      Driver.runSession s ks = .ok (chunks, s') →
      chunks.flatten =
        (List.range' s.delivered (s'.delivered - s.delivered)).map
          (Driver.sampleRow s)) ∧
    (∀ s : Driver.Session, s.capacity < s.produced - s.delivered →
      Driver.get_data s = .error .dataOverflowError) := by
  constructor
  · intro s ks chunks s' hds h
    exact (runSession_ok ks s chunks s' hds h).2.2.2
  · intro s hov
    simp [Driver.get_data, hov]

theorem spec_C1_get_data_contiguous_witness :
    wChunksA.flatten = (List.range' 0 17).map (Driver.sampleRow wSessA) ∧
      Driver.get_data wSessOver = .error .dataOverflowError :=
  ⟨spec_C1_get_data_contiguous.1 wSessA [12, 0, 5] wChunksA wSessA3
      (by decide) rfl,
   spec_C1_get_data_contiguous.2 wSessOver (by decide)⟩

/-- Claim C9: `is_available` is state-independent and side-effect-free —
its result does not depend on any driver instance's state, it requires no
prior `configure` or `start`, and it leaves the process-wide device state
unchanged, so a subsequent `configure` on a real instance behaves
identically whether or not `is_available` was called first. -/
theorem spec_C9_is_available_pure :
    (∀ w : Driver.World, (Driver.is_available w).2 = w) ∧
    (∀ (w : Driver.World) (a : Driver.AmpState),
      (Driver.is_available { w with amp := a }).1 =
        (Driver.is_available w).1) ∧
    (∀ (w : Driver.World) (cfg : Driver.Config),
      Driver.configure ((Driver.is_available w).2).amp cfg =
        Driver.configure w.amp cfg) :=
  ⟨fun _ => rfl, fun _ _ => rfl, fun _ _ => rfl⟩
